import Mathlib

/-!
Shallow embedding of `drivers/platform/tegra/tegra186-pmc.c` (Tegra186 PMC
register-control core) and proofs about it.

The PMC register block is modelled as a map from byte offset to the stored
value; `readl`/`writel` truncate to 32 bits, mirroring the `u32` MMIO
accessors.  Each driver function is embedded as a state transformer that also
emits the ordered trace of primitive hardware/lock events it performs, so that
both the data effects (register contents) and the protocol shape (lock
acquisition, write order, delays, log messages) of the C code are visible to
the theorems.
-/

/-- The PMC register block: byte offset ↦ stored value. -/
def PMCState : Type := Nat → Nat

/-- Primitive events performed by the driver routines, in program order:
spinlock acquire/release, 32-bit MMIO read/write, busy-wait delays
(`udelay`/`mdelay`) and the `pr_info` diagnostic. -/
inductive PMCEvent : Type where
  | lock : PMCEvent
  | unlock : PMCEvent
  | read : Nat → PMCEvent
  | write : Nat → Nat → PMCEvent
  | delayUs : Nat → PMCEvent
  | delayMs : Nat → PMCEvent
  | logInfo : PMCEvent
  deriving DecidableEq, Repr

/-- Result of running a `void` driver routine: final register state plus the
trace of events, in order. -/
structure PMCRun : Type where
  state : PMCState
  events : List PMCEvent

/-- Result of running an `int`-returning driver routine. -/
structure PMCRunRet : Type where
  state : PMCState
  events : List PMCEvent
  ret : Int

/-! Register offsets and bit masks, from the `#define`s in the C source. -/

def PMC_IO_DPD_REQ : Nat := 0x74
def PMC_IO_DPD_CSIA_MASK : Nat := 1 <<< 0
def PMC_IO_DPD_CSIB_MASK : Nat := 1 <<< 1
def PMC_IO_DPD_STATUS : Nat := 0x78
def PMC_IO_DPD2_REQ : Nat := 0x7C
def PMC_IO_DPD2_CSIC_MASK : Nat := 1 <<< 11
def PMC_IO_DPD2_CSID_MASK : Nat := 1 <<< 12
def PMC_IO_DPD2_CSIE_MASK : Nat := 1 <<< 13
def PMC_IO_DPD2_CSIF_MASK : Nat := 1 <<< 14
def PMC_IO_DPD2_STATUS : Nat := 0x80
def PMC_IO_SEL_DPD_TIM : Nat := 0xBC
def PMC_UFSHC_PWR_CNTRL_0 : Nat := 0xF4
def PMC_FUSE_CTRL : Nat := 0x100
def PMC_FUSE_CTRL_ENABLE_REDIRECTION : Nat := 1 <<< 0
def PMC_FUSE_CTRL_DISABLE_REDIRECTION : Nat := 1 <<< 1
def PMC_FUSE_CTRL_PS18_LATCH_SET : Nat := 1 <<< 8
def PMC_FUSE_CTRL_PS18_LATCH_CLEAR : Nat := 1 <<< 9
def PMC_SATA_PWRGT_0 : Nat := 0x68

/-- `tegra186_pmc_readl`: a 32-bit MMIO read of the register at `reg`. -/
def tegra186_pmc_readl (s : PMCState) (reg : Nat) : Nat := s reg % 2 ^ 32

/-- `tegra186_pmc_writel`: a 32-bit MMIO write of `val` to the register at
`reg` (the `u32` parameter truncates the value to 32 bits). -/
def tegra186_pmc_writel (s : PMCState) (val reg : Nat) : PMCState :=
  fun o => if o = reg then val % 2 ^ 32 else s o

/-- `_tegra186_pmc_register_update`: the unguarded read-modify-write
`pmc_reg = (pmc_reg & ~mask) | (val & mask)` followed by a write back. -/
def _tegra186_pmc_register_update (s : PMCState) (offset mask val : Nat) :
    PMCRun :=
  let pmc_reg := tegra186_pmc_readl s offset
  let pmc_reg := Nat.ldiff pmc_reg mask ||| (val &&& mask)
  { state := tegra186_pmc_writel s pmc_reg offset
    events := [PMCEvent.read offset, PMCEvent.write offset (pmc_reg % 2 ^ 32)] }

/-- `tegra186_pmc_register_update`: the read-modify-write under
`tegra186_pmc_access_lock` (spin_lock_irqsave / spin_unlock_irqrestore). -/
def tegra186_pmc_register_update (s : PMCState) (offset mask val : Nat) :
    PMCRun :=
  let r := _tegra186_pmc_register_update s offset mask val
  { state := r.state
    events := PMCEvent.lock :: r.events ++ [PMCEvent.unlock] }

/-- `tegra_pmc_register_get`: unguarded raw read. -/
def tegra_pmc_register_get (s : PMCState) (offset : Nat) : Nat :=
  tegra186_pmc_readl s offset

/-- `tegra186_pmc_io_dpd_enable`: under the lock, program the settle timer,
write the request bit, wait 7 µs, read back the status and log on mismatch;
always returns 0. -/
def tegra186_pmc_io_dpd_enable (s : PMCState) (reg bit_pos : Nat) :
    PMCRunRet :=
  let s1 := tegra186_pmc_writel s 0x10 PMC_IO_SEL_DPD_TIM
  let enable_mask := (1 <<< bit_pos) % 2 ^ 32
  let s2 := tegra186_pmc_writel s1 enable_mask (PMC_IO_DPD_REQ + reg * 8)
  let dpd_status := tegra186_pmc_readl s2 (PMC_IO_DPD_STATUS + reg * 8)
  { state := s2
    events := [PMCEvent.lock, PMCEvent.write PMC_IO_SEL_DPD_TIM 0x10,
        PMCEvent.write (PMC_IO_DPD_REQ + reg * 8) enable_mask,
        PMCEvent.delayUs 7, PMCEvent.read (PMC_IO_DPD_STATUS + reg * 8)] ++
      (if dpd_status &&& enable_mask = 0 then [PMCEvent.logInfo] else []) ++
      [PMCEvent.unlock]
    ret := 0 }

/-- `tegra186_pmc_io_dpd_disable`: like enable but with no timer write, and
the mismatch condition inverted (status bit still set after the wait);
always returns 0. -/
def tegra186_pmc_io_dpd_disable (s : PMCState) (reg bit_pos : Nat) :
    PMCRunRet :=
  let enable_mask := (1 <<< bit_pos) % 2 ^ 32
  let s1 := tegra186_pmc_writel s enable_mask (PMC_IO_DPD_REQ + reg * 8)
  let dpd_status := tegra186_pmc_readl s1 (PMC_IO_DPD_STATUS + reg * 8)
  { state := s1
    events := [PMCEvent.lock,
        PMCEvent.write (PMC_IO_DPD_REQ + reg * 8) enable_mask,
        PMCEvent.delayUs 7, PMCEvent.read (PMC_IO_DPD_STATUS + reg * 8)] ++
      (if dpd_status &&& enable_mask = 0 then [] else [PMCEvent.logInfo]) ++
      [PMCEvent.unlock]
    ret := 0 }

/-- `tegra186_pmc_io_dpd_get_status`: unguarded status read of one bit. -/
def tegra186_pmc_io_dpd_get_status (s : PMCState) (reg bit_pos : Nat) : Int :=
  let dpd_status := tegra186_pmc_readl s (PMC_IO_DPD_STATUS + reg * 8)
  if dpd_status &&& (1 <<< bit_pos) ≠ 0 then 1 else 0

/-- `tegra186_pmc_enable_nvcsi_brick_dpd`: two lockless read-modify-writes
setting the CSIA/CSIB bits in IO_DPD_REQ and the CSIC..CSIF bits in
IO_DPD2_REQ. -/
def tegra186_pmc_enable_nvcsi_brick_dpd (s : PMCState) : PMCRun :=
  let val := tegra186_pmc_readl s PMC_IO_DPD_REQ
  let val := val ||| PMC_IO_DPD_CSIA_MASK
  let val := val ||| PMC_IO_DPD_CSIB_MASK
  let s1 := tegra186_pmc_writel s val PMC_IO_DPD_REQ
  let val2 := tegra186_pmc_readl s1 PMC_IO_DPD2_REQ
  let val2 := val2 ||| (PMC_IO_DPD2_CSIC_MASK ||| PMC_IO_DPD2_CSID_MASK |||
    PMC_IO_DPD2_CSIE_MASK ||| PMC_IO_DPD2_CSIF_MASK)
  let s2 := tegra186_pmc_writel s1 val2 PMC_IO_DPD2_REQ
  { state := s2
    events := [PMCEvent.read PMC_IO_DPD_REQ,
      PMCEvent.write PMC_IO_DPD_REQ (val % 2 ^ 32),
      PMCEvent.read PMC_IO_DPD2_REQ,
      PMCEvent.write PMC_IO_DPD2_REQ (val2 % 2 ^ 32)] }

/-- `tegra186_pmc_disable_nvcsi_brick_dpd`: two lockless read-modify-writes
clearing the same brick bits. -/
def tegra186_pmc_disable_nvcsi_brick_dpd (s : PMCState) : PMCRun :=
  let val := tegra186_pmc_readl s PMC_IO_DPD_REQ
  let val := Nat.ldiff val (PMC_IO_DPD_CSIA_MASK ||| PMC_IO_DPD_CSIB_MASK)
  let s1 := tegra186_pmc_writel s val PMC_IO_DPD_REQ
  let val2 := tegra186_pmc_readl s1 PMC_IO_DPD2_REQ
  let val2 := Nat.ldiff val2 (PMC_IO_DPD2_CSIC_MASK ||| PMC_IO_DPD2_CSID_MASK
    ||| PMC_IO_DPD2_CSIE_MASK ||| PMC_IO_DPD2_CSIF_MASK)
  let s2 := tegra186_pmc_writel s1 val2 PMC_IO_DPD2_REQ
  { state := s2
    events := [PMCEvent.read PMC_IO_DPD_REQ,
      PMCEvent.write PMC_IO_DPD_REQ (val % 2 ^ 32),
      PMCEvent.read PMC_IO_DPD2_REQ,
      PMCEvent.write PMC_IO_DPD2_REQ (val2 % 2 ^ 32)] }

/-- `tegra_pmc_iopower_enable`: a single guarded `update(reg, mask, 0)`. -/
def tegra_pmc_iopower_enable (s : PMCState) (reg bit_mask : Nat) : PMCRun :=
  tegra186_pmc_register_update s reg bit_mask 0

/-- `tegra_pmc_iopower_disable`: a single guarded `update(reg, mask, mask)`. -/
def tegra_pmc_iopower_disable (s : PMCState) (reg bit_mask : Nat) : PMCRun :=
  tegra186_pmc_register_update s reg bit_mask bit_mask

/-- `tegra_pmc_fuse_control_ps18_latch_set`: lockless sequence — read
FUSE_CTRL, clear the PS18_LATCH_CLEAR bit, write back, wait 1 ms, set the
PS18_LATCH_SET bit in the same local value, write back, wait 1 ms. -/
def tegra_pmc_fuse_control_ps18_latch_set (s : PMCState) : PMCRun :=
  let val := tegra186_pmc_readl s PMC_FUSE_CTRL
  let val := Nat.ldiff val PMC_FUSE_CTRL_PS18_LATCH_CLEAR
  let s1 := tegra186_pmc_writel s val PMC_FUSE_CTRL
  let val := val ||| PMC_FUSE_CTRL_PS18_LATCH_SET
  let s2 := tegra186_pmc_writel s1 val PMC_FUSE_CTRL
  { state := s2
    events := [PMCEvent.read PMC_FUSE_CTRL,
      PMCEvent.write PMC_FUSE_CTRL (Nat.ldiff (tegra186_pmc_readl s
        PMC_FUSE_CTRL) PMC_FUSE_CTRL_PS18_LATCH_CLEAR % 2 ^ 32),
      PMCEvent.delayMs 1, PMCEvent.write PMC_FUSE_CTRL (val % 2 ^ 32),
      PMCEvent.delayMs 1] }

/-- `tegra_pmc_fuse_control_ps18_latch_clear`: mirror image of latch_set —
clear SET first, then assert CLEAR. -/
def tegra_pmc_fuse_control_ps18_latch_clear (s : PMCState) : PMCRun :=
  let val := tegra186_pmc_readl s PMC_FUSE_CTRL
  let val := Nat.ldiff val PMC_FUSE_CTRL_PS18_LATCH_SET
  let s1 := tegra186_pmc_writel s val PMC_FUSE_CTRL
  let val := val ||| PMC_FUSE_CTRL_PS18_LATCH_CLEAR
  let s2 := tegra186_pmc_writel s1 val PMC_FUSE_CTRL
  { state := s2
    events := [PMCEvent.read PMC_FUSE_CTRL,
      PMCEvent.write PMC_FUSE_CTRL (Nat.ldiff (tegra186_pmc_readl s
        PMC_FUSE_CTRL) PMC_FUSE_CTRL_PS18_LATCH_SET % 2 ^ 32),
      PMCEvent.delayMs 1, PMCEvent.write PMC_FUSE_CTRL (val % 2 ^ 32),
      PMCEvent.delayMs 1] }

/-- `tegra_pmc_fuse_disable_mirroring`: if ENABLE_REDIRECTION is set, write
the literal DISABLE_REDIRECTION value to FUSE_CTRL; otherwise do nothing. -/
def tegra_pmc_fuse_disable_mirroring (s : PMCState) : PMCRun :=
  let val := tegra186_pmc_readl s PMC_FUSE_CTRL
  if val &&& PMC_FUSE_CTRL_ENABLE_REDIRECTION ≠ 0 then
    { state := tegra186_pmc_writel s PMC_FUSE_CTRL_DISABLE_REDIRECTION
        PMC_FUSE_CTRL
      events := [PMCEvent.read PMC_FUSE_CTRL, PMCEvent.write PMC_FUSE_CTRL
        (PMC_FUSE_CTRL_DISABLE_REDIRECTION % 2 ^ 32)] }
  else
    { state := s, events := [PMCEvent.read PMC_FUSE_CTRL] }

/-- `tegra_pmc_fuse_enable_mirroring`: if ENABLE_REDIRECTION is clear, write
the literal ENABLE_REDIRECTION value to FUSE_CTRL; otherwise do nothing. -/
def tegra_pmc_fuse_enable_mirroring (s : PMCState) : PMCRun :=
  let val := tegra186_pmc_readl s PMC_FUSE_CTRL
  if val &&& PMC_FUSE_CTRL_ENABLE_REDIRECTION = 0 then
    { state := tegra186_pmc_writel s PMC_FUSE_CTRL_ENABLE_REDIRECTION
        PMC_FUSE_CTRL
      events := [PMCEvent.read PMC_FUSE_CTRL, PMCEvent.write PMC_FUSE_CTRL
        (PMC_FUSE_CTRL_ENABLE_REDIRECTION % 2 ^ 32)] }
  else
    { state := s, events := [PMCEvent.read PMC_FUSE_CTRL] }

/-! Trace observations used by the theorems. -/

/-- Keep only the hardware-surface events (MMIO reads/writes and delays),
dropping lock/unlock and log events. -/
def hwEvents (es : List PMCEvent) : List PMCEvent :=
  es.filter fun e =>
    match e with
    | PMCEvent.read _ => true
    | PMCEvent.write _ _ => true
    | PMCEvent.delayUs _ => true
    | PMCEvent.delayMs _ => true
    | _ => false

/-- Number of MMIO writes in a trace. -/
def countWrites : List PMCEvent → Nat
  | [] => 0
  | PMCEvent.write _ _ :: es => countWrites es + 1
  | _ :: es => countWrites es

/-- `writesLocked es d = true` iff every MMIO write in `es` happens while the
lock depth (starting at `d`) is positive, i.e. while the spinlock is held. -/
def writesLocked : List PMCEvent → Nat → Bool
  | [], _ => true
  | PMCEvent.lock :: es, d => writesLocked es (d + 1)
  | PMCEvent.unlock :: es, d => writesLocked es (d - 1)
  | PMCEvent.write _ _ :: es, d => decide (0 < d) && writesLocked es d
  | _ :: es, d => writesLocked es d

/-! Helper lemmas. -/

theorem testBit_true_lt_32 {mask i : Nat} (hmask : mask < 2 ^ 32)
    (h : mask.testBit i = true) : i < 32 := by
  by_contra hge
  have hlt : mask < 2 ^ i :=
    lt_of_lt_of_le hmask (Nat.pow_le_pow_right (by norm_num)
      (Nat.le_of_not_lt hge))
  simp [Nat.testBit_lt_two_pow hlt] at h

theorem register_update_spec (s : PMCState)
    (offset mask val : Nat) (hmask : mask < 2 ^ 32) :
    tegra186_pmc_readl
        (tegra186_pmc_register_update s offset mask val).state offset &&& mask
      = val &&& mask ∧
    Nat.ldiff (tegra186_pmc_readl
        (tegra186_pmc_register_update s offset mask val).state offset) mask
      = Nat.ldiff (tegra186_pmc_readl s offset) mask := by
  constructor <;>
  · apply Nat.eq_of_testBit_eq
    intro i
    simp only [tegra186_pmc_register_update,
      _tegra186_pmc_register_update, tegra186_pmc_readl, tegra186_pmc_writel,
      if_pos, Nat.testBit_mod_two_pow, Nat.testBit_land, Nat.testBit_lor,
      Nat.testBit_ldiff]
    by_cases hmi : mask.testBit i
    · have hi : i < 32 := testBit_true_lt_32 hmask hmi
      simp [hmi, hi]
    · simp [hmi]

/-- C1: after `tegra186_pmc_register_update(offset, mask, value)`, the
register at `offset` reads back with `get(offset) & mask == value & mask`,
and `get(offset) & ~mask` is unchanged from before the call. -/
theorem register_update_mask_set_rest_preserved (s : PMCState)
    (offset mask val : Nat) (hmask : mask < 2 ^ 32) :
    tegra_pmc_register_get
        (tegra186_pmc_register_update s offset mask val).state offset &&& mask
      = val &&& mask ∧
    Nat.ldiff (tegra_pmc_register_get
        (tegra186_pmc_register_update s offset mask val).state offset) mask
      = Nat.ldiff (tegra_pmc_register_get s offset) mask :=
  register_update_spec s offset mask val hmask

theorem register_update_mask_set_rest_preserved_witness :
    (3 : Nat) < 2 ^ 32 ∧
    (tegra_pmc_register_get
        (tegra186_pmc_register_update (fun _ => 0xF0) 0x34 3 1).state 0x34 &&& 3
      = 1 &&& 3 ∧
    Nat.ldiff (tegra_pmc_register_get
        (tegra186_pmc_register_update (fun _ => 0xF0) 0x34 3 1).state 0x34) 3
      = Nat.ldiff (tegra_pmc_register_get (fun _ => 0xF0) 0x34) 3) :=
  ⟨by norm_num, register_update_mask_set_rest_preserved (fun _ => 0xF0)
    0x34 3 1 (by norm_num)⟩

/-- C3: `tegra186_pmc_io_dpd_enable` and `tegra186_pmc_io_dpd_disable`
unconditionally return the success indicator 0, for every group index and bit
position; a status mismatch after the settle wait is only logged (the
`logInfo` event appears in the trace exactly when the mismatch occurs), never
returned as an error. -/
theorem io_dpd_enable_disable_return_zero (s : PMCState) (reg bit_pos : Nat) :
    (tegra186_pmc_io_dpd_enable s reg bit_pos).ret = 0 ∧
    (tegra186_pmc_io_dpd_disable s reg bit_pos).ret = 0 ∧
    (PMCEvent.logInfo ∈ (tegra186_pmc_io_dpd_enable s reg bit_pos).events ↔
      tegra186_pmc_readl (tegra186_pmc_io_dpd_enable s reg bit_pos).state
          (PMC_IO_DPD_STATUS + reg * 8) &&& ((1 <<< bit_pos) % 2 ^ 32) = 0) ∧
    (PMCEvent.logInfo ∈ (tegra186_pmc_io_dpd_disable s reg bit_pos).events ↔
      tegra186_pmc_readl (tegra186_pmc_io_dpd_disable s reg bit_pos).state
          (PMC_IO_DPD_STATUS + reg * 8) &&& ((1 <<< bit_pos) % 2 ^ 32) ≠ 0) := by
  refine ⟨rfl, rfl, ?_, ?_⟩
  · by_cases h : tegra186_pmc_readl (tegra186_pmc_io_dpd_enable s reg bit_pos).state
        (PMC_IO_DPD_STATUS + reg * 8) &&& ((1 <<< bit_pos) % 2 ^ 32) = 0 <;>
      simp [tegra186_pmc_io_dpd_enable, tegra186_pmc_readl] at h ⊢
  · by_cases h : tegra186_pmc_readl (tegra186_pmc_io_dpd_disable s reg bit_pos).state
        (PMC_IO_DPD_STATUS + reg * 8) &&& ((1 <<< bit_pos) % 2 ^ 32) = 0 <;>
      simp [tegra186_pmc_io_dpd_disable, tegra186_pmc_readl] at h ⊢

theorem one_shiftLeft_mod_two_pow_32 {b : Nat} (hb : b < 32) :
    (1 <<< b) % 2 ^ 32 = 1 <<< b := by
  rw [Nat.shiftLeft_eq, one_mul]
  exact Nat.mod_eq_of_lt (Nat.pow_lt_pow_right (by norm_num) hb)

/-- C5: the DPD enable sequence performs, in order, a write of 0x10 to
IO_SEL_DPD_TIM (0xBC), a plain write of `1<<bit` to the request register at
`0x74 + group*8`, the 7 µs settle delay, and a read of the status register at
`0x78 + group*8`; the disable sequence performs the same request write, delay
and status read, but no timer write. -/
theorem io_dpd_hw_trace (s : PMCState) (reg bit_pos : Nat)
    (hb : bit_pos < 32) :
    hwEvents (tegra186_pmc_io_dpd_enable s reg bit_pos).events
      = [PMCEvent.write PMC_IO_SEL_DPD_TIM 0x10,
         PMCEvent.write (PMC_IO_DPD_REQ + reg * 8) (1 <<< bit_pos),
         PMCEvent.delayUs 7,
         PMCEvent.read (PMC_IO_DPD_STATUS + reg * 8)] ∧
    hwEvents (tegra186_pmc_io_dpd_disable s reg bit_pos).events
      = [PMCEvent.write (PMC_IO_DPD_REQ + reg * 8) (1 <<< bit_pos),
         PMCEvent.delayUs 7,
         PMCEvent.read (PMC_IO_DPD_STATUS + reg * 8)] := by
  have hmod := one_shiftLeft_mod_two_pow_32 hb
  constructor
  · simp only [tegra186_pmc_io_dpd_enable, hmod]
    split <;> simp [hwEvents]
  · simp only [tegra186_pmc_io_dpd_disable, hmod]
    split <;> simp [hwEvents]

theorem io_dpd_hw_trace_witness :
    (0 : Nat) < 32 ∧
    (hwEvents (tegra186_pmc_io_dpd_enable (fun _ => 0) 0 0).events
      = [PMCEvent.write PMC_IO_SEL_DPD_TIM 0x10,
         PMCEvent.write (PMC_IO_DPD_REQ + 0 * 8) (1 <<< 0),
         PMCEvent.delayUs 7,
         PMCEvent.read (PMC_IO_DPD_STATUS + 0 * 8)] ∧
    hwEvents (tegra186_pmc_io_dpd_disable (fun _ => 0) 0 0).events
      = [PMCEvent.write (PMC_IO_DPD_REQ + 0 * 8) (1 <<< 0),
         PMCEvent.delayUs 7,
         PMCEvent.read (PMC_IO_DPD_STATUS + 0 * 8)]) :=
  ⟨by norm_num, io_dpd_hw_trace (fun _ => 0) 0 0 (by norm_num)⟩

/-- C7: calling `tegra_pmc_fuse_enable_mirroring` twice in a row performs at
most one write to FUSE_CTRL (the second call sees ENABLE_REDIRECTION already
set and writes nothing); likewise `tegra_pmc_fuse_disable_mirroring` twice in
a row performs at most one write. -/
theorem mirroring_twice_at_most_one_write (s : PMCState) :
    countWrites ((tegra_pmc_fuse_enable_mirroring s).events ++
        (tegra_pmc_fuse_enable_mirroring
          (tegra_pmc_fuse_enable_mirroring s).state).events) ≤ 1 ∧
    countWrites ((tegra_pmc_fuse_disable_mirroring s).events ++
        (tegra_pmc_fuse_disable_mirroring
          (tegra_pmc_fuse_disable_mirroring s).state).events) ≤ 1 := by
  constructor
  · simp only [tegra_pmc_fuse_enable_mirroring]
    split
    · dsimp only
      have h2 : ¬ (tegra186_pmc_readl (tegra186_pmc_writel s
          PMC_FUSE_CTRL_ENABLE_REDIRECTION PMC_FUSE_CTRL) PMC_FUSE_CTRL &&&
          PMC_FUSE_CTRL_ENABLE_REDIRECTION = 0) := by
        simp [tegra186_pmc_readl, tegra186_pmc_writel, PMC_FUSE_CTRL,
          PMC_FUSE_CTRL_ENABLE_REDIRECTION]
      rw [if_neg h2]
      simp [countWrites]
    · dsimp only
      simp [countWrites]
  · simp only [tegra_pmc_fuse_disable_mirroring]
    split
    · dsimp only
      have h2 : ¬ (tegra186_pmc_readl (tegra186_pmc_writel s
          PMC_FUSE_CTRL_DISABLE_REDIRECTION PMC_FUSE_CTRL) PMC_FUSE_CTRL &&&
          PMC_FUSE_CTRL_ENABLE_REDIRECTION ≠ 0) := by
        simp [tegra186_pmc_readl, tegra186_pmc_writel, PMC_FUSE_CTRL,
          PMC_FUSE_CTRL_ENABLE_REDIRECTION, PMC_FUSE_CTRL_DISABLE_REDIRECTION]
      rw [if_neg h2]
      simp [countWrites]
    · dsimp only
      simp [countWrites]

theorem testBit_one_shiftLeft (k i : Nat) :
    (1 <<< k).testBit i = decide (k = i) := by
  rw [Nat.shiftLeft_eq, one_mul, Nat.testBit_two_pow]

/-- C10: when `tegra_pmc_fuse_enable_mirroring` does write (the
ENABLE_REDIRECTION bit was previously clear), it stores the literal
ENABLE_REDIRECTION value, so FUSE_CTRL reads back as exactly that bit with
every other bit zero; likewise `tegra_pmc_fuse_disable_mirroring`, when it
writes, stores exactly the DISABLE_REDIRECTION value. -/
theorem mirroring_writes_are_literal (s : PMCState) :
    (tegra186_pmc_readl s PMC_FUSE_CTRL &&&
        PMC_FUSE_CTRL_ENABLE_REDIRECTION = 0 →
      tegra186_pmc_readl (tegra_pmc_fuse_enable_mirroring s).state
          PMC_FUSE_CTRL = PMC_FUSE_CTRL_ENABLE_REDIRECTION) ∧
    (tegra186_pmc_readl s PMC_FUSE_CTRL &&&
        PMC_FUSE_CTRL_ENABLE_REDIRECTION ≠ 0 →
      tegra186_pmc_readl (tegra_pmc_fuse_disable_mirroring s).state
          PMC_FUSE_CTRL = PMC_FUSE_CTRL_DISABLE_REDIRECTION) := by
  constructor
  · intro h
    simp [tegra186_pmc_readl, PMC_FUSE_CTRL,
      PMC_FUSE_CTRL_ENABLE_REDIRECTION] at h
    simp [tegra_pmc_fuse_enable_mirroring, h, tegra186_pmc_readl,
      tegra186_pmc_writel, PMC_FUSE_CTRL, PMC_FUSE_CTRL_ENABLE_REDIRECTION]
  · intro h
    simp only [tegra_pmc_fuse_disable_mirroring, if_pos h]
    simp [tegra186_pmc_readl, tegra186_pmc_writel, PMC_FUSE_CTRL,
      PMC_FUSE_CTRL_DISABLE_REDIRECTION]

theorem mirroring_writes_are_literal_witness :
    (tegra186_pmc_readl (fun _ => 0) PMC_FUSE_CTRL &&&
        PMC_FUSE_CTRL_ENABLE_REDIRECTION = 0 ∧
      tegra186_pmc_readl (tegra_pmc_fuse_enable_mirroring (fun _ => 0)).state
          PMC_FUSE_CTRL = PMC_FUSE_CTRL_ENABLE_REDIRECTION) ∧
    (tegra186_pmc_readl (fun _ => 1) PMC_FUSE_CTRL &&&
        PMC_FUSE_CTRL_ENABLE_REDIRECTION ≠ 0 ∧
      tegra186_pmc_readl (tegra_pmc_fuse_disable_mirroring (fun _ => 1)).state
          PMC_FUSE_CTRL = PMC_FUSE_CTRL_DISABLE_REDIRECTION) :=
  ⟨⟨by decide, (mirroring_writes_are_literal (fun _ => 0)).1 (by decide)⟩,
   ⟨by decide, (mirroring_writes_are_literal (fun _ => 1)).2 (by decide)⟩⟩

theorem latch_set_bits (s : PMCState) :
    tegra186_pmc_readl (tegra_pmc_fuse_control_ps18_latch_set s).state
        PMC_FUSE_CTRL &&& PMC_FUSE_CTRL_PS18_LATCH_CLEAR = 0 ∧
    tegra186_pmc_readl (tegra_pmc_fuse_control_ps18_latch_set s).state
        PMC_FUSE_CTRL &&& PMC_FUSE_CTRL_PS18_LATCH_SET
      = PMC_FUSE_CTRL_PS18_LATCH_SET := by
  constructor <;>
  · apply Nat.eq_of_testBit_eq
    intro i
    simp only [tegra_pmc_fuse_control_ps18_latch_set, tegra186_pmc_readl,
      tegra186_pmc_writel, PMC_FUSE_CTRL, PMC_FUSE_CTRL_PS18_LATCH_SET,
      PMC_FUSE_CTRL_PS18_LATCH_CLEAR, if_pos, Nat.testBit_mod_two_pow,
      Nat.testBit_land, Nat.testBit_lor, Nat.testBit_ldiff,
      testBit_one_shiftLeft, Nat.zero_testBit]
    rcases eq_or_ne 8 i with h8 | h8
    · subst h8; simp
    · rcases eq_or_ne 9 i with h9 | h9
      · subst h9; simp
      · simp [h8, h9]

theorem latch_clear_bits (s : PMCState) :
    tegra186_pmc_readl (tegra_pmc_fuse_control_ps18_latch_clear s).state
        PMC_FUSE_CTRL &&& PMC_FUSE_CTRL_PS18_LATCH_SET = 0 ∧
    tegra186_pmc_readl (tegra_pmc_fuse_control_ps18_latch_clear s).state
        PMC_FUSE_CTRL &&& PMC_FUSE_CTRL_PS18_LATCH_CLEAR
      = PMC_FUSE_CTRL_PS18_LATCH_CLEAR := by
  constructor <;>
  · apply Nat.eq_of_testBit_eq
    intro i
    simp only [tegra_pmc_fuse_control_ps18_latch_clear, tegra186_pmc_readl,
      tegra186_pmc_writel, PMC_FUSE_CTRL, PMC_FUSE_CTRL_PS18_LATCH_SET,
      PMC_FUSE_CTRL_PS18_LATCH_CLEAR, if_pos, Nat.testBit_mod_two_pow,
      Nat.testBit_land, Nat.testBit_lor, Nat.testBit_ldiff,
      testBit_one_shiftLeft, Nat.zero_testBit]
    rcases eq_or_ne 8 i with h8 | h8
    · subst h8; simp
    · rcases eq_or_ne 9 i with h9 | h9
      · subst h9; simp
      · simp [h8, h9]

/-- C4: for every prior FUSE_CTRL value, `latch_set` completes with the
PS18_LATCH_CLEAR bit unset and the PS18_LATCH_SET bit set; `latch_clear`
completes with SET unset and CLEAR set; and running the two in sequence, in
either order, never ends with both latch bits asserted at once. -/
theorem latch_set_clear_never_both (s : PMCState) :
    (tegra186_pmc_readl (tegra_pmc_fuse_control_ps18_latch_set s).state
        PMC_FUSE_CTRL &&& PMC_FUSE_CTRL_PS18_LATCH_CLEAR = 0 ∧
     tegra186_pmc_readl (tegra_pmc_fuse_control_ps18_latch_set s).state
        PMC_FUSE_CTRL &&& PMC_FUSE_CTRL_PS18_LATCH_SET
      = PMC_FUSE_CTRL_PS18_LATCH_SET) ∧
    (tegra186_pmc_readl (tegra_pmc_fuse_control_ps18_latch_clear s).state
        PMC_FUSE_CTRL &&& PMC_FUSE_CTRL_PS18_LATCH_SET = 0 ∧
     tegra186_pmc_readl (tegra_pmc_fuse_control_ps18_latch_clear s).state
        PMC_FUSE_CTRL &&& PMC_FUSE_CTRL_PS18_LATCH_CLEAR
      = PMC_FUSE_CTRL_PS18_LATCH_CLEAR) ∧
    (tegra186_pmc_readl (tegra_pmc_fuse_control_ps18_latch_clear
          (tegra_pmc_fuse_control_ps18_latch_set s).state).state
        PMC_FUSE_CTRL &&& PMC_FUSE_CTRL_PS18_LATCH_SET = 0 ∨
     tegra186_pmc_readl (tegra_pmc_fuse_control_ps18_latch_clear
          (tegra_pmc_fuse_control_ps18_latch_set s).state).state
        PMC_FUSE_CTRL &&& PMC_FUSE_CTRL_PS18_LATCH_CLEAR = 0) ∧
    (tegra186_pmc_readl (tegra_pmc_fuse_control_ps18_latch_set
          (tegra_pmc_fuse_control_ps18_latch_clear s).state).state
        PMC_FUSE_CTRL &&& PMC_FUSE_CTRL_PS18_LATCH_SET = 0 ∨
     tegra186_pmc_readl (tegra_pmc_fuse_control_ps18_latch_set
          (tegra_pmc_fuse_control_ps18_latch_clear s).state).state
        PMC_FUSE_CTRL &&& PMC_FUSE_CTRL_PS18_LATCH_CLEAR = 0) :=
  ⟨latch_set_bits s, latch_clear_bits s,
   Or.inl (latch_clear_bits (tegra_pmc_fuse_control_ps18_latch_set s).state).1,
   Or.inr (latch_set_bits (tegra_pmc_fuse_control_ps18_latch_clear s).state).1⟩

/-- C8: `tegra186_pmc_enable_nvcsi_brick_dpd` sets exactly the CSIA/CSIB bits
(bits 0 and 1) of IO_DPD_REQ and exactly the CSIC..CSIF bits (bits 11–14) of
IO_DPD2_REQ, leaving every other bit of both registers unchanged;
`tegra186_pmc_disable_nvcsi_brick_dpd` clears exactly those bits; neither
touches any other register. -/
theorem nvcsi_brick_dpd_exact_bits (s : PMCState) :
    (tegra186_pmc_readl (tegra186_pmc_enable_nvcsi_brick_dpd s).state
        PMC_IO_DPD_REQ
      = tegra186_pmc_readl s PMC_IO_DPD_REQ |||
          (PMC_IO_DPD_CSIA_MASK ||| PMC_IO_DPD_CSIB_MASK) ∧
     tegra186_pmc_readl (tegra186_pmc_enable_nvcsi_brick_dpd s).state
        PMC_IO_DPD2_REQ
      = tegra186_pmc_readl s PMC_IO_DPD2_REQ |||
          (PMC_IO_DPD2_CSIC_MASK ||| PMC_IO_DPD2_CSID_MASK |||
            PMC_IO_DPD2_CSIE_MASK ||| PMC_IO_DPD2_CSIF_MASK) ∧
     tegra186_pmc_readl (tegra186_pmc_disable_nvcsi_brick_dpd s).state
        PMC_IO_DPD_REQ
      = Nat.ldiff (tegra186_pmc_readl s PMC_IO_DPD_REQ)
          (PMC_IO_DPD_CSIA_MASK ||| PMC_IO_DPD_CSIB_MASK) ∧
     tegra186_pmc_readl (tegra186_pmc_disable_nvcsi_brick_dpd s).state
        PMC_IO_DPD2_REQ
      = Nat.ldiff (tegra186_pmc_readl s PMC_IO_DPD2_REQ)
          (PMC_IO_DPD2_CSIC_MASK ||| PMC_IO_DPD2_CSID_MASK |||
            PMC_IO_DPD2_CSIE_MASK ||| PMC_IO_DPD2_CSIF_MASK)) ∧
    (∀ off, off ≠ PMC_IO_DPD_REQ → off ≠ PMC_IO_DPD2_REQ →
      (tegra186_pmc_enable_nvcsi_brick_dpd s).state off = s off) ∧
    (∀ off, off ≠ PMC_IO_DPD_REQ → off ≠ PMC_IO_DPD2_REQ →
      (tegra186_pmc_disable_nvcsi_brick_dpd s).state off = s off) := by
  refine ⟨⟨?_, ?_, ?_, ?_⟩, ?_, ?_⟩
  · show (s 0x74 % 2 ^ 32 ||| 1 <<< 0 ||| 1 <<< 1) % 2 ^ 32 % 2 ^ 32
        = s 0x74 % 2 ^ 32 ||| (1 <<< 0 ||| 1 <<< 1)
    apply Nat.eq_of_testBit_eq
    intro i
    simp only [Nat.testBit_mod_two_pow, Nat.testBit_lor, testBit_one_shiftLeft]
    rcases eq_or_ne 0 i with h0 | h0
    · subst h0; simp
    · rcases eq_or_ne 1 i with h1 | h1
      · subst h1; simp
      · by_cases hi : i < 32 <;> simp [h0, h1, hi]
  · show (s 0x7C % 2 ^ 32 |||
          (1 <<< 11 ||| 1 <<< 12 ||| 1 <<< 13 ||| 1 <<< 14)) % 2 ^ 32 % 2 ^ 32
        = s 0x7C % 2 ^ 32 ||| (1 <<< 11 ||| 1 <<< 12 ||| 1 <<< 13 ||| 1 <<< 14)
    apply Nat.eq_of_testBit_eq
    intro i
    simp only [Nat.testBit_mod_two_pow, Nat.testBit_lor, testBit_one_shiftLeft]
    rcases eq_or_ne 11 i with h11 | h11
    · subst h11; simp
    · rcases eq_or_ne 12 i with h12 | h12
      · subst h12; simp
      · rcases eq_or_ne 13 i with h13 | h13
        · subst h13; simp
        · rcases eq_or_ne 14 i with h14 | h14
          · subst h14; simp
          · by_cases hi : i < 32 <;> simp [h11, h12, h13, h14, hi]
  · show Nat.ldiff (s 0x74 % 2 ^ 32) (1 <<< 0 ||| 1 <<< 1) % 2 ^ 32 % 2 ^ 32
        = Nat.ldiff (s 0x74 % 2 ^ 32) (1 <<< 0 ||| 1 <<< 1)
    apply Nat.eq_of_testBit_eq
    intro i
    simp only [Nat.testBit_mod_two_pow, Nat.testBit_lor, Nat.testBit_ldiff,
      testBit_one_shiftLeft]
    rcases eq_or_ne 0 i with h0 | h0
    · subst h0; simp
    · rcases eq_or_ne 1 i with h1 | h1
      · subst h1; simp
      · by_cases hi : i < 32 <;> simp [h0, h1, hi]
  · show Nat.ldiff (s 0x7C % 2 ^ 32)
          (1 <<< 11 ||| 1 <<< 12 ||| 1 <<< 13 ||| 1 <<< 14) % 2 ^ 32 % 2 ^ 32
        = Nat.ldiff (s 0x7C % 2 ^ 32)
          (1 <<< 11 ||| 1 <<< 12 ||| 1 <<< 13 ||| 1 <<< 14)
    apply Nat.eq_of_testBit_eq
    intro i
    simp only [Nat.testBit_mod_two_pow, Nat.testBit_lor, Nat.testBit_ldiff,
      testBit_one_shiftLeft]
    rcases eq_or_ne 11 i with h11 | h11
    · subst h11; simp
    · rcases eq_or_ne 12 i with h12 | h12
      · subst h12; simp
      · rcases eq_or_ne 13 i with h13 | h13
        · subst h13; simp
        · rcases eq_or_ne 14 i with h14 | h14
          · subst h14; simp
          · by_cases hi : i < 32 <;> simp [h11, h12, h13, h14, hi]
  · intro off h1 h2
    simp only [PMC_IO_DPD_REQ] at h1
    simp only [PMC_IO_DPD2_REQ] at h2
    simp [tegra186_pmc_enable_nvcsi_brick_dpd, tegra186_pmc_writel,
      PMC_IO_DPD_REQ, PMC_IO_DPD2_REQ, h1, h2]
  · intro off h1 h2
    simp only [PMC_IO_DPD_REQ] at h1
    simp only [PMC_IO_DPD2_REQ] at h2
    simp [tegra186_pmc_disable_nvcsi_brick_dpd, tegra186_pmc_writel,
      PMC_IO_DPD_REQ, PMC_IO_DPD2_REQ, h1, h2]

theorem nvcsi_brick_dpd_exact_bits_witness :
    ((0x10 : Nat) ≠ PMC_IO_DPD_REQ ∧ (0x10 : Nat) ≠ PMC_IO_DPD2_REQ ∧
      (tegra186_pmc_enable_nvcsi_brick_dpd (fun _ => 0xFFFF)).state 0x10
        = 0xFFFF) ∧
    ((0x10 : Nat) ≠ PMC_IO_DPD_REQ ∧ (0x10 : Nat) ≠ PMC_IO_DPD2_REQ ∧
      (tegra186_pmc_disable_nvcsi_brick_dpd (fun _ => 0xFFFF)).state 0x10
        = 0xFFFF) :=
  ⟨⟨by decide, by decide,
    (nvcsi_brick_dpd_exact_bits (fun _ => 0xFFFF)).2.1 0x10
      (by decide) (by decide)⟩,
   ⟨by decide, by decide,
    (nvcsi_brick_dpd_exact_bits (fun _ => 0xFFFF)).2.2 0x10
      (by decide) (by decide)⟩⟩

/-- C9: `tegra_pmc_iopower_enable(reg, mask)` is exactly the single call
`update(reg, mask, 0)` and `tegra_pmc_iopower_disable(reg, mask)` is exactly
`update(reg, mask, mask)`; afterwards the no-power bits read back as 0
(resp. as `mask`) with all other bits preserved, so enable and disable are
exact boolean inverses over the same bitmask. -/
theorem iopower_enable_disable_single_update (s : PMCState)
    (reg bit_mask : Nat) (hmask : bit_mask < 2 ^ 32) :
    tegra_pmc_iopower_enable s reg bit_mask
      = tegra186_pmc_register_update s reg bit_mask 0 ∧
    tegra_pmc_iopower_disable s reg bit_mask
      = tegra186_pmc_register_update s reg bit_mask bit_mask ∧
    tegra186_pmc_readl (tegra_pmc_iopower_enable s reg bit_mask).state reg
      &&& bit_mask = 0 ∧
    tegra186_pmc_readl (tegra_pmc_iopower_disable s reg bit_mask).state reg
      &&& bit_mask = bit_mask ∧
    Nat.ldiff (tegra186_pmc_readl
        (tegra_pmc_iopower_enable s reg bit_mask).state reg) bit_mask
      = Nat.ldiff (tegra186_pmc_readl s reg) bit_mask ∧
    Nat.ldiff (tegra186_pmc_readl
        (tegra_pmc_iopower_disable s reg bit_mask).state reg) bit_mask
      = Nat.ldiff (tegra186_pmc_readl s reg) bit_mask := by
  refine ⟨rfl, rfl, ?_, ?_, ?_, ?_⟩
  · have h := (register_update_spec s reg bit_mask 0 hmask).1
    simpa using h
  · have h := (register_update_spec s reg bit_mask bit_mask hmask).1
    simpa using h
  · exact (register_update_spec s reg bit_mask 0 hmask).2
  · exact (register_update_spec s reg bit_mask bit_mask hmask).2

theorem iopower_enable_disable_single_update_witness :
    (15 : Nat) < 2 ^ 32 ∧
    (tegra_pmc_iopower_enable (fun _ => 0xA5) 0x34 15
      = tegra186_pmc_register_update (fun _ => 0xA5) 0x34 15 0 ∧
    tegra_pmc_iopower_disable (fun _ => 0xA5) 0x34 15
      = tegra186_pmc_register_update (fun _ => 0xA5) 0x34 15 15 ∧
    tegra186_pmc_readl (tegra_pmc_iopower_enable (fun _ => 0xA5) 0x34 15).state
      0x34 &&& 15 = 0 ∧
    tegra186_pmc_readl (tegra_pmc_iopower_disable (fun _ => 0xA5) 0x34 15).state
      0x34 &&& 15 = 15 ∧
    Nat.ldiff (tegra186_pmc_readl
        (tegra_pmc_iopower_enable (fun _ => 0xA5) 0x34 15).state 0x34) 15
      = Nat.ldiff (tegra186_pmc_readl (fun _ => 0xA5) 0x34) 15 ∧
    Nat.ldiff (tegra186_pmc_readl
        (tegra_pmc_iopower_disable (fun _ => 0xA5) 0x34 15).state 0x34) 15
      = Nat.ldiff (tegra186_pmc_readl (fun _ => 0xA5) 0x34) 15) :=
  ⟨by norm_num,
   iopower_enable_disable_single_update (fun _ => 0xA5) 0x34 15 (by norm_num)⟩

theorem land_eq_zero_testBit {mA mB : Nat} (hd : mA &&& mB = 0) (i : Nat) :
    mA.testBit i = false ∨ mB.testBit i = false := by
  by_cases h1 : mA.testBit i
  · right
    have h := congrArg (fun x => Nat.testBit x i) hd
    simpa [Nat.testBit_land, h1] using h
  · left
    simpa using h1

theorem two_updates_spec (s : PMCState) (offset mA vA mB vB : Nat)
    (hA : mA < 2 ^ 32) (hB : mB < 2 ^ 32) (hd : mA &&& mB = 0) :
    tegra186_pmc_readl (tegra186_pmc_register_update
        (tegra186_pmc_register_update s offset mA vA).state offset mB vB).state
        offset &&& mA = vA &&& mA ∧
    tegra186_pmc_readl (tegra186_pmc_register_update
        (tegra186_pmc_register_update s offset mA vA).state offset mB vB).state
        offset &&& mB = vB &&& mB ∧
    Nat.ldiff (tegra186_pmc_readl (tegra186_pmc_register_update
        (tegra186_pmc_register_update s offset mA vA).state offset mB vB).state
        offset) (mA ||| mB)
      = Nat.ldiff (tegra186_pmc_readl s offset) (mA ||| mB) := by
  refine ⟨?_, ?_, ?_⟩ <;>
  · apply Nat.eq_of_testBit_eq
    intro i
    simp only [tegra186_pmc_register_update, _tegra186_pmc_register_update,
      tegra186_pmc_readl, tegra186_pmc_writel, if_pos,
      Nat.testBit_mod_two_pow, Nat.testBit_land, Nat.testBit_lor,
      Nat.testBit_ldiff]
    by_cases hAi : mA.testBit i
    · have hi : i < 32 := testBit_true_lt_32 hA hAi
      have hBi : mB.testBit i = false :=
        (land_eq_zero_testBit hd i).resolve_left (by simp [hAi])
      simp [hAi, hBi, hi]
    · by_cases hBi : mB.testBit i
      · have hi : i < 32 := testBit_true_lt_32 hB hBi
        simp [hAi, hBi, hi]
      · by_cases hi : i < 32 <;> simp [hAi, hBi, hi]

/-- C6: for two `tegra186_pmc_register_update` calls to the same offset with
disjoint masks, running both to completion in either order yields a final
register value where each mask region equals its requested value and the bits
outside both masks are unchanged — neither update is lost. -/
theorem disjoint_updates_never_lost (s : PMCState)
    (offset m1 v1 m2 v2 : Nat) (h1 : m1 < 2 ^ 32) (h2 : m2 < 2 ^ 32)
    (hd : m1 &&& m2 = 0) :
    (tegra186_pmc_readl (tegra186_pmc_register_update
        (tegra186_pmc_register_update s offset m1 v1).state offset m2 v2).state
        offset &&& m1 = v1 &&& m1 ∧
     tegra186_pmc_readl (tegra186_pmc_register_update
        (tegra186_pmc_register_update s offset m1 v1).state offset m2 v2).state
        offset &&& m2 = v2 &&& m2 ∧
     Nat.ldiff (tegra186_pmc_readl (tegra186_pmc_register_update
        (tegra186_pmc_register_update s offset m1 v1).state offset m2 v2).state
        offset) (m1 ||| m2)
      = Nat.ldiff (tegra186_pmc_readl s offset) (m1 ||| m2)) ∧
    (tegra186_pmc_readl (tegra186_pmc_register_update
        (tegra186_pmc_register_update s offset m2 v2).state offset m1 v1).state
        offset &&& m1 = v1 &&& m1 ∧
     tegra186_pmc_readl (tegra186_pmc_register_update
        (tegra186_pmc_register_update s offset m2 v2).state offset m1 v1).state
        offset &&& m2 = v2 &&& m2 ∧
     Nat.ldiff (tegra186_pmc_readl (tegra186_pmc_register_update
        (tegra186_pmc_register_update s offset m2 v2).state offset m1 v1).state
        offset) (m1 ||| m2)
      = Nat.ldiff (tegra186_pmc_readl s offset) (m1 ||| m2)) := by
  have hd2 : m2 &&& m1 = 0 := by rw [Nat.land_comm]; exact hd
  obtain ⟨a1, a2, a3⟩ := two_updates_spec s offset m1 v1 m2 v2 h1 h2 hd
  obtain ⟨b1, b2, b3⟩ := two_updates_spec s offset m2 v2 m1 v1 h2 h1 hd2
  rw [Nat.lor_comm m2 m1] at b3
  exact ⟨⟨a1, a2, a3⟩, ⟨b2, b1, b3⟩⟩

theorem disjoint_updates_never_lost_witness :
    (1 : Nat) < 2 ^ 32 ∧ (2 : Nat) < 2 ^ 32 ∧ (1 : Nat) &&& 2 = 0 ∧
    ((tegra186_pmc_readl (tegra186_pmc_register_update
        (tegra186_pmc_register_update (fun _ => 4) 0x40 1 1).state 0x40 2 2).state
        0x40 &&& 1 = 1 &&& 1 ∧
     tegra186_pmc_readl (tegra186_pmc_register_update
        (tegra186_pmc_register_update (fun _ => 4) 0x40 1 1).state 0x40 2 2).state
        0x40 &&& 2 = 2 &&& 2 ∧
     Nat.ldiff (tegra186_pmc_readl (tegra186_pmc_register_update
        (tegra186_pmc_register_update (fun _ => 4) 0x40 1 1).state 0x40 2 2).state
        0x40) (1 ||| 2)
      = Nat.ldiff (tegra186_pmc_readl (fun _ => 4) 0x40) (1 ||| 2)) ∧
    (tegra186_pmc_readl (tegra186_pmc_register_update
        (tegra186_pmc_register_update (fun _ => 4) 0x40 2 2).state 0x40 1 1).state
        0x40 &&& 1 = 1 &&& 1 ∧
     tegra186_pmc_readl (tegra186_pmc_register_update
        (tegra186_pmc_register_update (fun _ => 4) 0x40 2 2).state 0x40 1 1).state
        0x40 &&& 2 = 2 &&& 2 ∧
     Nat.ldiff (tegra186_pmc_readl (tegra186_pmc_register_update
        (tegra186_pmc_register_update (fun _ => 4) 0x40 2 2).state 0x40 1 1).state
        0x40) (1 ||| 2)
      = Nat.ldiff (tegra186_pmc_readl (fun _ => 4) 0x40) (1 ||| 2))) :=
  ⟨by norm_num, by norm_num, by decide,
   disjoint_updates_never_lost (fun _ => 4) 0x40 1 1 2 2
     (by norm_num) (by norm_num) (by decide)⟩

/-- C2 (counterexample): the claim that every multi-step mutation sequence —
including the fuse-latch sequences and the NVCSI brick DPD read-modify-writes
— runs entirely under `tegra186_pmc_access_lock` is false: starting from the
all-zero register block, `tegra_pmc_fuse_control_ps18_latch_set` and
`tegra186_pmc_enable_nvcsi_brick_dpd` both perform MMIO writes with the lock
depth at zero (they never acquire the lock). -/
theorem latch_and_brick_write_unlocked_cex :
    writesLocked (tegra_pmc_fuse_control_ps18_latch_set (fun _ => 0)).events 0
      = false ∧
    writesLocked (tegra186_pmc_enable_nvcsi_brick_dpd (fun _ => 0)).events 0
      = false := ⟨rfl, rfl⟩

/-- C2 (amended): `tegra186_pmc_register_update` and the DPD
enable/disable sequences perform every MMIO write while holding the spinlock,
but the fuse-latch set/clear sequences and the NVCSI brick DPD
read-modify-writes acquire no lock at all — all their writes happen outside
the guard, and their traces contain no lock acquisition whatsoever. -/
theorem guarded_and_unguarded_write_sequences (s : PMCState)
    (offset mask val reg bit_pos : Nat) :
    writesLocked (tegra186_pmc_register_update s offset mask val).events 0
      = true ∧
    writesLocked (tegra186_pmc_io_dpd_enable s reg bit_pos).events 0 = true ∧
    writesLocked (tegra186_pmc_io_dpd_disable s reg bit_pos).events 0 = true ∧
    writesLocked (tegra_pmc_fuse_control_ps18_latch_set s).events 0 = false ∧
    writesLocked (tegra_pmc_fuse_control_ps18_latch_clear s).events 0
      = false ∧
    writesLocked (tegra186_pmc_enable_nvcsi_brick_dpd s).events 0 = false ∧
    writesLocked (tegra186_pmc_disable_nvcsi_brick_dpd s).events 0 = false ∧
    PMCEvent.lock ∉ (tegra_pmc_fuse_control_ps18_latch_set s).events ∧
    PMCEvent.lock ∉ (tegra_pmc_fuse_control_ps18_latch_clear s).events ∧
    PMCEvent.lock ∉ (tegra186_pmc_enable_nvcsi_brick_dpd s).events ∧
    PMCEvent.lock ∉ (tegra186_pmc_disable_nvcsi_brick_dpd s).events := by
  refine ⟨rfl, ?_, ?_, rfl, rfl, rfl, rfl, ?_, ?_, ?_, ?_⟩
  · simp only [tegra186_pmc_io_dpd_enable]
    split <;> rfl
  · simp only [tegra186_pmc_io_dpd_disable]
    split <;> rfl
  · simp [tegra_pmc_fuse_control_ps18_latch_set]
  · simp [tegra_pmc_fuse_control_ps18_latch_clear]
  · simp [tegra186_pmc_enable_nvcsi_brick_dpd]
  · simp [tegra186_pmc_disable_nvcsi_brick_dpd]
